import Mathlib

/-!
Verification of the checkmk check-cert threshold-check engine.

The repository source under scrutiny is
src/packages/check-cert/src/checker/fetcher.rs, a thin consumer of the
crate's check module (CheckResult, Collection, LevelsChecker,
LevelsCheckerArgs, OutputType, Real).  The check module itself is not part
of the provided sources, so its data model and operations are modelled from
the specification; fetcher.rs is embedded directly from source.
-/

set_option autoImplicit false

/-- Modelled from the spec: the severity status of a check outcome,
ordered OK=0, WARN=1, CRIT=2, UNKNOWN=3 for worst-case folding. -/
inductive Severity : Type
  | OK
  | WARN
  | CRIT
  | UNKNOWN
deriving DecidableEq, Repr

/-- Modelled from the spec: the numeric rank of a severity, used for the
monitoring exit code and for the worst-case order. -/
def Severity.toNat : Severity → Nat
  | Severity.OK => 0
  | Severity.WARN => 1
  | Severity.CRIT => 2
  | Severity.UNKNOWN => 3

/-- Modelled from the spec: the severity order (OK < WARN < CRIT < UNKNOWN). -/
def Severity.le (a b : Severity) : Prop := a.toNat ≤ b.toNat

instance (a b : Severity) : Decidable (Severity.le a b) :=
  inferInstanceAs (Decidable (a.toNat ≤ b.toNat))

/-- Modelled from the spec: worst-case join of two severities. -/
def Severity.max (a b : Severity) : Severity :=
  if a.toNat ≤ b.toNat then b else a

/-- Modelled from the spec: rendered output text, tagged Notice or Summary.
Summary is always surfaced; Notice is shown only for non-OK results. -/
inductive OutputType : Type
  | Notice : String → OutputType
  | Summary : String → OutputType
deriving DecidableEq, Repr

/-- The raw text carried by an output, disregarding its tag. -/
def OutputType.text : OutputType → String
  | OutputType.Notice s => s
  | OutputType.Summary s => s

/-- Modelled from the spec: a recognized unit-of-measure symbol.  The
recognized grammar covers at least plain count, seconds, percentage and
bytes; any other string fails to parse. -/
inductive Uom : Type
  | count
  | s
  | percent
  | bytes
deriving DecidableEq, Repr

/-- Modelled from the spec: parsing of a unit string by the recognized-unit
grammar; an unrecognized string is a construction-time failure (none). -/
def Uom.parse : String → Option Uom
  | "1" => some Uom.count
  | "s" => some Uom.s
  | "%" => some Uom.percent
  | "B" => some Uom.bytes
  | _ => none

/-- Modelled from the spec: the performance-data tuple
(label, value, unit, warning bound, critical bound). -/
structure Metric (T : Type) : Type where
  label : String
  value : T
  uom : Uom
  warning : Option T
  critical : Option T
deriving DecidableEq, Repr

/-- Modelled from the spec: mapping the numeric dimension of a metric
(value and both bounds) through a conversion function. -/
def Metric.map {T U : Type} (m : Metric T) (f : T → U) : Metric U :=
  ⟨m.label, f m.value, m.uom, m.warning.map f, m.critical.map f⟩

/-- Modelled from the spec: a typed check outcome — severity, tagged
rendered text, optional performance metric. -/
structure CheckResult (T : Type) : Type where
  severity : Severity
  output : OutputType
  metric : Option (Metric T)
deriving DecidableEq, Repr

/-- Modelled from the spec: the placeholder result substituted for an
absent dimension — OK, empty output text, no metric. -/
def CheckResult.default {T : Type} : CheckResult T :=
  ⟨Severity.OK, OutputType.Notice "", none⟩

instance {T : Type} : Inhabited (CheckResult T) := ⟨CheckResult.default⟩

/-- Modelled from the spec: mapping the measured-value dimension of a
result through a conversion function (used by fetcher.rs to convert a
Duration-typed metric into the Real numeric representation). -/
def CheckResult.map {T U : Type} (r : CheckResult T) (f : T → U) : CheckResult U :=
  ⟨r.severity, r.output, r.metric.map (fun m => m.map f)⟩

/-- Modelled from the spec: arguments of an evaluation — at minimum a
metric label and a recognized unit. -/
structure LevelsCheckerArgs : Type where
  label : String
  uom : Uom
deriving DecidableEq, Repr

/-- Modelled from the spec: a levels checker holding an optional warning
bound, an optional critical bound, and the comparison direction fixed at
construction (cmp value bound = true means the value breaches the bound). -/
structure LevelsChecker (T : Type) : Type where
  warning : Option T
  critical : Option T
  cmp : T → T → Bool

/-- Modelled from the spec: the text synthesized for a breached critical
bound — references both bounds when a warning bound is also present. -/
def synthCritText {T : Type} [ToString T] (label : String) (value : T)
    (warning : Option T) (c : T) : String :=
  match warning with
  | some w =>
      label ++ ": " ++ toString value ++ " (warn/crit at " ++ toString w
        ++ "/" ++ toString c ++ ")"
  | none =>
      label ++ ": " ++ toString value ++ " (crit at " ++ toString c ++ ")"

/-- Modelled from the spec: the text synthesized for a breached warning
bound, referencing only the warning bound. -/
def synthWarnText {T : Type} [ToString T] (label : String) (value : T)
    (w : T) : String :=
  label ++ ": " ++ toString value ++ " (warn at " ++ toString w ++ ")"

/-- Modelled from the spec: the metric tuple attached to a result — present
exactly when at least one bound is configured, with both bounds copied
verbatim. -/
def LevelsChecker.metricOf {T : Type} (lc : LevelsChecker T) (value : T)
    (args : LevelsCheckerArgs) : Option (Metric T) :=
  if lc.warning.isSome || lc.critical.isSome then
    some ⟨args.label, value, args.uom, lc.warning, lc.critical⟩
  else none

/-- Modelled from the spec: evaluation of one measured value against the
configured levels.  Critical is checked first and short-circuits; then
warning; else OK with the caller-supplied output unmodified.  The metric
tuple is attached exactly when at least one bound is present, with both
bounds copied verbatim. -/
def LevelsChecker.check {T : Type} [ToString T] (lc : LevelsChecker T)
    (value : T) (output : OutputType) (args : LevelsCheckerArgs) :
    CheckResult T :=
  let metric : Option (Metric T) := lc.metricOf value args
  match lc.critical with
  | some c =>
      if lc.cmp value c then
        ⟨Severity.CRIT,
          OutputType.Summary (synthCritText args.label value lc.warning c),
          metric⟩
      else
        match lc.warning with
        | some w =>
            if lc.cmp value w then
              ⟨Severity.WARN,
                OutputType.Summary (synthWarnText args.label value w),
                metric⟩
            else ⟨Severity.OK, output, metric⟩
        | none => ⟨Severity.OK, output, metric⟩
  | none =>
      match lc.warning with
      | some w =>
          if lc.cmp value w then
            ⟨Severity.WARN,
              OutputType.Summary (synthWarnText args.label value w),
              metric⟩
          else ⟨Severity.OK, output, metric⟩
      | none => ⟨Severity.OK, output, metric⟩

/-- Modelled from the spec: an ordered aggregate of check results. -/
structure Collection (T : Type) : Type where
  results : List (CheckResult T)
deriving DecidableEq, Repr

/-- Modelled from the spec: Collection::from — pure aggregation of an
ordered sequence of results. -/
def Collection.from {T : Type} (rs : List (CheckResult T)) : Collection T :=
  ⟨rs⟩

/-- Modelled from the spec: worst severity across all contained results,
OK if empty. -/
def Collection.overall_severity {T : Type} (c : Collection T) : Severity :=
  c.results.foldr (fun r acc => Severity.max r.severity acc) Severity.OK

/-- Modelled from the spec: whether a result's text is surfaced — Summary
always, Notice only when the result is non-OK. -/
def shownText {T : Type} (r : CheckResult T) : Option String :=
  match r.output with
  | OutputType.Summary s => some s
  | OutputType.Notice s => if r.severity = Severity.OK then none else some s

/-- Modelled from the spec: the combined textual output — the surfaced
texts in sequence order (joining into one string is boundary formatting). -/
def Collection.combined_text {T : Type} (c : Collection T) : List String :=
  c.results.filterMap shownText

/-- Modelled from the spec: the order-preserving sequence of all present
metric tuples. -/
def Collection.metrics {T : Type} (c : Collection T) : List (Metric T) :=
  c.results.filterMap (fun r => r.metric)

/-! ## The fetcher (embedded from source:
src/packages/check-cert/src/checker/fetcher.rs) -/

/-- Rust std::time::Duration: whole seconds plus a nanosecond part. -/
structure Duration : Type where
  secs : Nat
  nanos : Nat
deriving DecidableEq, Repr

/-- Duration::as_millis. -/
def Duration.as_millis (d : Duration) : Nat :=
  d.secs * 1000 + d.nanos / 1000000

/-- Total nanoseconds of a duration. -/
def Duration.toNanos (d : Duration) : Nat :=
  d.secs * 1000000000 + d.nanos

/-- Duration::as_secs_f64, modelled exactly as a rational number of
seconds (binary64 rounding is abstracted away). -/
def Duration.as_secs_f64 (d : Duration) : ℚ :=
  (d.toNanos : ℚ) / 1000000000

/-- Modelled from the spec: rendering of a duration in synthesized
threshold text (the spec does not pin the display format of a duration;
total nanoseconds are used here). -/
instance : ToString Duration := ⟨fun d => toString d.toNanos ++ "ns"⟩

/-- The Real numeric representation used for metric emission, modelled
exactly as a rational. -/
abbrev Real64 : Type := ℚ

/-- The "exceeds" comparison direction: value ≥ bound means breach. -/
def Duration.exceeds (v b : Duration) : Bool :=
  decide (b.toNanos ≤ v.toNanos)

/-- Config from fetcher.rs: one optional levels checker for the
response-time dimension. -/
structure Config : Type where
  response_time : Option (LevelsChecker Duration)

/-- check_response_time from fetcher.rs: evaluate the response time if a
checker is configured, with the Notice text rendering the duration in
milliseconds, the label "overall_response_time" and the unit "s". -/
def check_response_time (response_time : Duration)
    (levels : Option (LevelsChecker Duration)) :
    Option (CheckResult Duration) :=
  levels.map (fun levels =>
    levels.check response_time
      (OutputType.Notice
        ("Response time: " ++ toString response_time.as_millis ++ " ms"))
      ⟨"overall_response_time", Uom.s⟩)

/-- check from fetcher.rs: build a Collection from the single
response-time result, defaulting to the placeholder when the dimension is
not configured, with the metric dimension converted to seconds. -/
def check (response_time : Duration) (config : Config) : Collection Real64 :=
  Collection.from
    [((check_response_time response_time config.response_time).getD
        CheckResult.default).map Duration.as_secs_f64]

/-- check_response_time with the panic point made explicit: the hard-coded
unit string "s" is parsed by the recognized-unit grammar and the unwrap is
modelled as an Option (outer layer = absence of panic). -/
def check_response_time_fallible (response_time : Duration)
    (levels : Option (LevelsChecker Duration)) :
    Option (Option (CheckResult Duration)) :=
  match levels with
  | none => some none
  | some lc =>
      (Uom.parse "s").map (fun u =>
        some (lc.check response_time
          (OutputType.Notice
            ("Response time: " ++ toString response_time.as_millis ++ " ms"))
          ⟨"overall_response_time", u⟩))

/-- check from fetcher.rs with the panic point made explicit. -/
def check_fallible (response_time : Duration) (config : Config) :
    Option (Collection Real64) :=
  (check_response_time_fallible response_time config.response_time).map
    (fun r =>
      Collection.from
        [(r.getD CheckResult.default).map Duration.as_secs_f64])

/-! ## Helper lemmas -/

theorem check_metric_any {T : Type} [ToString T] (lc : LevelsChecker T)
    (value : T) (output : OutputType) (args : LevelsCheckerArgs) :
    (lc.check value output args).metric = lc.metricOf value args := by
  unfold LevelsChecker.check
  cases lc.critical with
  | none =>
      cases lc.warning with
      | none => rfl
      | some w => by_cases h : lc.cmp value w <;> simp [h]
  | some c =>
      by_cases hc : lc.cmp value c
      · simp [hc]
      · cases lc.warning with
        | none => simp [hc]
        | some w => by_cases hw : lc.cmp value w <;> simp [hc, hw]

/-! ## Claims -/

/-- C1: whenever the critical bound is present and breached, the result
severity is CRIT, regardless of the warning bound. -/
theorem crit_breach_reports_crit {T : Type} [ToString T]
    (lc : LevelsChecker T) (v : T) (out : OutputType)
    (args : LevelsCheckerArgs) (c : T)
    (hc : lc.critical = some c) (hbr : lc.cmp v c = true) :
    (lc.check v out args).severity = Severity.CRIT := by
  unfold LevelsChecker.check
  rw [hc]
  simp [hbr]

/-- Witness for C1 at a concrete checker over Nat with both bounds, where
the value 3 breaches both the warning bound 1 and the critical bound 2. -/
theorem crit_breach_reports_crit_witness :
    (LevelsChecker.mk (some 1) (some 2) (fun v b => Nat.ble b v)).critical
        = some 2 ∧
    (LevelsChecker.mk (some 1) (some 2) (fun v b => Nat.ble b v)).cmp 3 2
        = true ∧
    ((LevelsChecker.mk (some 1) (some 2) (fun v b => Nat.ble b v)).check 3
        (OutputType.Notice "fine") ⟨"m", Uom.count⟩).severity
      = Severity.CRIT :=
  ⟨rfl, rfl,
    crit_breach_reports_crit _ 3 (OutputType.Notice "fine") ⟨"m", Uom.count⟩
      2 rfl rfl⟩

/-- C2: with only a warning bound configured, the severity is WARN exactly
when the value breaches it, and OK otherwise. -/
theorem warn_only_severity {T : Type} [ToString T]
    (lc : LevelsChecker T) (v : T) (out : OutputType)
    (args : LevelsCheckerArgs) (w : T)
    (hc : lc.critical = none) (hw : lc.warning = some w) :
    ((lc.check v out args).severity = Severity.WARN ↔ lc.cmp v w = true) ∧
    (lc.cmp v w = false → (lc.check v out args).severity = Severity.OK) := by
  unfold LevelsChecker.check
  rw [hc, hw]
  by_cases hb : lc.cmp v w <;> simp [hb]

/-- Witness for C2 at a concrete warning-only checker over Nat, value 3
against warning bound 1. -/
theorem warn_only_severity_witness :
    (LevelsChecker.mk (some 1) none (fun v b => Nat.ble b v)).critical
        = none ∧
    (LevelsChecker.mk (some 1) none (fun v b => Nat.ble b v)).warning
        = some 1 ∧
    ((((LevelsChecker.mk (some 1) none (fun v b => Nat.ble b v)).check 3
          (OutputType.Notice "fine") ⟨"m", Uom.count⟩).severity
        = Severity.WARN ↔
      (LevelsChecker.mk (some 1) none (fun v b => Nat.ble b v)).cmp 3 1
        = true) ∧
     ((LevelsChecker.mk (some 1) none (fun v b => Nat.ble b v)).cmp 3 1
        = false →
      ((LevelsChecker.mk (some 1) none (fun v b => Nat.ble b v)).check 3
          (OutputType.Notice "fine") ⟨"m", Uom.count⟩).severity
        = Severity.OK)) :=
  ⟨rfl, rfl,
    warn_only_severity _ 3 (OutputType.Notice "fine") ⟨"m", Uom.count⟩ 1
      rfl rfl⟩

/-- C3: with neither bound set the result is OK with no metric and the
output is exactly the caller-supplied value, unmodified; in particular a
0.3 s response with Notice text built by the fetcher yields exactly
"Response time: 300 ms". -/
theorem no_bounds_ok_unmodified {T : Type} [ToString T]
    (lc : LevelsChecker T) (v : T) (out : OutputType)
    (args : LevelsCheckerArgs)
    (hw : lc.warning = none) (hc : lc.critical = none) :
    lc.check v out args = ⟨Severity.OK, out, none⟩ ∧
    check_response_time ⟨0, 300000000⟩
        (some ⟨none, none, Duration.exceeds⟩)
      = some ⟨Severity.OK, OutputType.Notice "Response time: 300 ms", none⟩ := by
  constructor
  · unfold LevelsChecker.check
    rw [hc, hw]
    simp [LevelsChecker.metricOf, hw, hc]
  · decide

/-- Witness for C3 at a bound-less checker over Duration and the concrete
0.3 s duration. -/
theorem no_bounds_ok_unmodified_witness :
    (LevelsChecker.mk (none : Option Duration) none Duration.exceeds).warning
        = none ∧
    (LevelsChecker.mk (none : Option Duration) none Duration.exceeds).critical
        = none ∧
    ((LevelsChecker.mk (none : Option Duration) none Duration.exceeds).check
        ⟨0, 300000000⟩ (OutputType.Notice "Response time: 300 ms")
        ⟨"overall_response_time", Uom.s⟩
      = ⟨Severity.OK, OutputType.Notice "Response time: 300 ms", none⟩ ∧
     check_response_time ⟨0, 300000000⟩
        (some ⟨none, none, Duration.exceeds⟩)
      = some ⟨Severity.OK, OutputType.Notice "Response time: 300 ms", none⟩) :=
  ⟨rfl, rfl,
    no_bounds_ok_unmodified
      (LevelsChecker.mk (none : Option Duration) none Duration.exceeds)
      ⟨0, 300000000⟩ (OutputType.Notice "Response time: 300 ms")
      ⟨"overall_response_time", Uom.s⟩ rfl rfl⟩

/-- C4: with the response-time slot unconfigured, check still places
exactly one result, the placeholder — OK, empty output text, no metric —
so the sequence length matches the configured case (which is also 1). -/
theorem absent_slot_placeholder (d : Duration) (cfg : Config)
    (h : cfg.response_time = none) :
    (check d cfg).results = [⟨Severity.OK, OutputType.Notice "", none⟩] ∧
    (check d cfg).results.length = 1 := by
  unfold check check_response_time
  rw [h]
  exact ⟨rfl, rfl⟩

/-- Witness for C4 at the empty configuration and a zero duration. -/
theorem absent_slot_placeholder_witness :
    (Config.mk none).response_time = none ∧
    ((check ⟨0, 0⟩ ⟨none⟩).results
        = [⟨Severity.OK, OutputType.Notice "", none⟩] ∧
     (check ⟨0, 0⟩ ⟨none⟩).results.length = 1) :=
  ⟨rfl, absent_slot_placeholder ⟨0, 0⟩ ⟨none⟩ rfl⟩

/-- C10: for every duration and configuration, the collection built by
check holds exactly one result. -/
theorem check_exactly_one_result (d : Duration) (cfg : Config) :
    (check d cfg).results.length = 1 := rfl

/-- C8: evaluation is total — the variant of check with the hard-coded
unit-string parse and its unwrap modelled as an explicit failure point
always succeeds, and agrees with the total embedding. -/
theorem evaluation_total (d : Duration) (cfg : Config) :
    check_fallible d cfg = some (check d cfg) ∧
    (check_fallible d cfg).isSome = true := by
  cases cfg with
  | mk rt =>
      cases rt with
      | none => exact ⟨rfl, rfl⟩
      | some lc => exact ⟨rfl, rfl⟩

theorem sev_le_max_right (a b : Severity) :
    Severity.le b (Severity.max a b) := by
  cases a <;> cases b <;> decide

theorem sev_max_mono_right (a : Severity) {b c : Severity}
    (h : Severity.le b c) :
    Severity.le (Severity.max a b) (Severity.max a c) := by
  revert h
  cases a <;> cases b <;> cases c <;> decide

/-- C5: aggregation is monotonic — a collection built from a subsequence
of another collection's results has overall severity no greater than the
larger collection's. -/
theorem overall_severity_mono {T : Type} (l1 l2 : List (CheckResult T))
    (h : List.Sublist l1 l2) :
    Severity.le (Collection.from l1).overall_severity
      (Collection.from l2).overall_severity := by
  induction h with
  | slnil => exact Nat.le_refl _
  | cons r _ ih => exact Nat.le_trans ih (sev_le_max_right r.severity _)
  | cons₂ r _ ih => exact sev_max_mono_right r.severity ih

/-- Witness for C5: an OK-only collection against the same plus an added
CRIT result. -/
theorem overall_severity_mono_witness :
    List.Sublist
        [(⟨Severity.OK, OutputType.Notice "", none⟩ : CheckResult Nat)]
        [⟨Severity.OK, OutputType.Notice "", none⟩,
         ⟨Severity.CRIT, OutputType.Summary "bad", none⟩] ∧
    Severity.le
      (Collection.from
          [(⟨Severity.OK, OutputType.Notice "", none⟩ :
              CheckResult Nat)]).overall_severity
      (Collection.from
          [(⟨Severity.OK, OutputType.Notice "", none⟩ : CheckResult Nat),
           ⟨Severity.CRIT, OutputType.Summary "bad", none⟩]).overall_severity :=
  ⟨List.Sublist.cons₂ _ (List.nil_sublist _),
   overall_severity_mono _ _ (List.Sublist.cons₂ _ (List.nil_sublist _))⟩

/-- C6: the empty collection is the identity for aggregation — overall
severity OK and no metrics, the same as a single placeholder OK result. -/
theorem empty_collection_identity {T : Type} :
    (Collection.from ([] : List (CheckResult T))).overall_severity
        = Severity.OK ∧
    (Collection.from ([] : List (CheckResult T))).metrics = [] ∧
    (Collection.from
        [(CheckResult.default : CheckResult T)]).overall_severity
      = Severity.OK ∧
    (Collection.from [(CheckResult.default : CheckResult T)]).metrics = [] :=
  ⟨rfl, rfl, rfl, rfl⟩

theorem filterMap_sublist_map {α β : Type} (f : α → Option β) (g : α → β)
    (hfg : ∀ a b, f a = some b → b = g a) (l : List α) :
    List.Sublist (l.filterMap f) (l.map g) := by
  induction l with
  | nil => exact List.nil_sublist _
  | cons a t ih =>
      cases hfa : f a with
      | none =>
          simp only [List.filterMap_cons, hfa, List.map_cons]
          exact List.Sublist.cons _ ih
      | some b =>
          simp only [List.filterMap_cons, hfa, List.map_cons]
          rw [hfg a b hfa]
          exact List.Sublist.cons₂ _ ih

theorem shownText_eq_text {T : Type} (r : CheckResult T) (s : String)
    (h : shownText r = some s) : s = r.output.text := by
  cases r with
  | mk sev out m =>
      cases out with
      | Notice t =>
          simp only [shownText] at h
          by_cases hs : sev = Severity.OK
          · simp [hs] at h
          · simp only [OutputType.text]
            simp [hs] at h
            exact h.symm
      | Summary t =>
          simp only [shownText] at h
          simp only [OutputType.text]
          simp at h
          exact h.symm

theorem metric_map_some_eq {T : Type} (r : CheckResult T)
    (b : Option (Metric T)) (h : (r.metric).map some = some b) :
    b = r.metric := by
  cases hm : r.metric with
  | none => rw [hm] at h; simp at h
  | some m =>
      rw [hm] at h
      simp at h
      rw [← h]

/-- C7: combined text and metrics are derived in input order — they
distribute over appending of result sequences, the combined text is an
order-preserving selection of the results' texts, and the metrics are an
order-preserving selection of the results' metric slots. -/
theorem collection_order_preservation {T : Type}
    (rs1 rs2 : List (CheckResult T)) :
    (Collection.from (rs1 ++ rs2)).combined_text
      = (Collection.from rs1).combined_text
        ++ (Collection.from rs2).combined_text ∧
    (Collection.from (rs1 ++ rs2)).metrics
      = (Collection.from rs1).metrics ++ (Collection.from rs2).metrics ∧
    List.Sublist (Collection.from rs1).combined_text
      (rs1.map (fun r => r.output.text)) ∧
    List.Sublist ((Collection.from rs1).metrics.map some)
      (rs1.map (fun r => r.metric)) := by
  refine ⟨?_, ?_, ?_, ?_⟩
  · simp [Collection.combined_text, Collection.from, List.filterMap_append]
  · simp [Collection.metrics, Collection.from, List.filterMap_append]
  · exact filterMap_sublist_map shownText (fun r => r.output.text)
      shownText_eq_text rs1
  · have h1 : ((Collection.from rs1).metrics).map some
        = rs1.filterMap (fun r => (r.metric).map some) := by
      simp [Collection.metrics, Collection.from, List.map_filterMap]
    rw [h1]
    exact filterMap_sublist_map (fun r => (r.metric).map some)
      (fun r => r.metric) (fun r b h => metric_map_some_eq r b h) rs1

/-- C9 counterexample: with a configured response-time checker that has no
bounds, the single result carries no metric at all — so it does not carry
the label "overall_response_time", the unit "s" or any value. -/
theorem configured_without_bounds_no_metric :
    (check ⟨0, 300000000⟩
        ⟨some ⟨none, none, Duration.exceeds⟩⟩).results.map
        (fun r => r.metric)
      = [none] := rfl

/-- C9 (amended): when the configured response-time checker has at least
one bound, the single result's metric carries the label
"overall_response_time", the unit "s", and the duration converted to
seconds as its value. -/
theorem metric_label_unit_value (d : Duration) (lc : LevelsChecker Duration)
    (cfg : Config) (hcfg : cfg.response_time = some lc)
    (hb : (lc.warning.isSome || lc.critical.isSome) = true) :
    (check d cfg).results.map
        (fun r => r.metric.map (fun m => (m.label, m.uom, m.value)))
      = [some ("overall_response_time", Uom.s, d.as_secs_f64)] := by
  have hm : (lc.check d
        (OutputType.Notice
          ("Response time: " ++ toString d.as_millis ++ " ms"))
        ⟨"overall_response_time", Uom.s⟩).metric
      = some ⟨"overall_response_time", d, Uom.s, lc.warning, lc.critical⟩ := by
    rw [check_metric_any]
    unfold LevelsChecker.metricOf
    rw [hb]
    rfl
  simp [check, check_response_time, hcfg, CheckResult.map, Metric.map,
    Collection.from, hm]

/-- Witness for the amended C9 at a checker with both bounds and a 0.3 s
duration. -/
theorem metric_label_unit_value_witness :
    (Config.mk
        (some ⟨some ⟨1, 0⟩, some ⟨2, 0⟩, Duration.exceeds⟩)).response_time
      = some ⟨some ⟨1, 0⟩, some ⟨2, 0⟩, Duration.exceeds⟩ ∧
    ((LevelsChecker.mk (some (⟨1, 0⟩ : Duration)) (some ⟨2, 0⟩)
          Duration.exceeds).warning.isSome
        || (LevelsChecker.mk (some (⟨1, 0⟩ : Duration)) (some ⟨2, 0⟩)
          Duration.exceeds).critical.isSome) = true ∧
    (check ⟨0, 300000000⟩
        ⟨some ⟨some ⟨1, 0⟩, some ⟨2, 0⟩, Duration.exceeds⟩⟩).results.map
        (fun r => r.metric.map (fun m => (m.label, m.uom, m.value)))
      = [some ("overall_response_time", Uom.s,
          Duration.as_secs_f64 ⟨0, 300000000⟩)] :=
  ⟨rfl, rfl, metric_label_unit_value ⟨0, 300000000⟩ _ _ rfl rfl⟩
